import Mathlib

/-!
Verification of the run-orchestration client of Local-Agent-Studio
(src PipelineContext: the Run State Machine, Run Controller and
Discovery Poller).

Modelling conventions:
* JavaScript values that can be `undefined` are modelled as `Option`;
  `none` encodes `undefined` (and wire `null`).  Fields of an
  `AgentMetrics` record can be `undefined` in the source, because the
  `agent_start` handler spreads a possibly-undefined previous record:
  spreading `undefined` contributes no fields, so the freshly created
  record has only `status` and `provider` defined.
* The JavaScript nullish-coalescing operator `a ?? b` is `jsCoalesce`
  when `b` is itself possibly undefined, and `Option.getD` when `b` is
  a defined literal.
* The string concatenation `prev.output + token` coerces an undefined
  `prev.output` to the string "undefined"; `jsString` performs this
  coercion.
* JavaScript numbers carry no arithmetic in this component (they are
  only stored and replaced), so they are modelled as `Rat`.
* A JavaScript object used as a string-keyed map is modelled as an
  association list; `setKey` mirrors the object-spread update
  (replace in place when the key exists, append otherwise) and
  `lookupKey` mirrors property access.
* Transport and timer effects (AbortController, stream readers,
  setInterval) live outside the pure state; the `setState` closures of
  the source are modelled as pure functions on `PipelineState`, the
  failure continuation of `run` as `runCatch`, and the outcome of one
  discovery poll as a `FetchOutcome` argument to `fetchStatus`.
-/

namespace Pipeline

/-- Agent status, from the AgentStatus union type of the source. -/
inductive AgentStatus where
  | idle
  | running
  | done
  | error
deriving DecidableEq, Repr

/-- Pipeline status, from the PipelineStatus union type of the source. -/
inductive PipelineStatus where
  | idle
  | running
  | done
  | stopped
deriving DecidableEq, Repr

/-- Inference provider kind, from the ProviderType union of the source. -/
inductive ProviderType where
  | simulation
  | ollama
  | lmstudio
  | llamacpp
  | transformers
deriving DecidableEq, Repr

/-- Per-agent metrics record.  The numeric fields and `output` are
`Option`-typed because the source can leave them `undefined` (see the
module docstring); `status` and `provider` are set on every code path
that creates a record, hence total. -/
structure AgentMetrics where
  status : AgentStatus
  tokens : Option Rat
  tokensPerSec : Option Rat
  latencyMs : Option Rat
  vramGb : Option Rat
  output : Option String
  provider : ProviderType
deriving DecidableEq, Repr

/-- Advisory information about a concurrently executing stage; the
source builds it from event fields read without a default, so both
fields can be undefined. -/
structure ParallelStageInfo where
  stageIndex : Option Rat
  agentIds : Option (List String)
deriving DecidableEq, Repr

/-- Reachability of each known provider kind. -/
structure ProviderStatus where
  ollama : Bool
  lmstudio : Bool
  llamacpp : Bool
  transformers : Bool
deriving DecidableEq, Repr

/-- The reactive pipeline state container of the source, restricted to
the fields the run-orchestration logic reads or writes (the
configuration-editor fields selectedNode and nodeConfigs are outside
the verified fragment). -/
structure PipelineState where
  status : PipelineStatus
  prompt : String
  agentMetrics : List (String × AgentMetrics)
  totalTokens : Rat
  totalMs : Rat
  error : Option String
  useRealModels : Bool
  providerType : ProviderType
  providerStatus : ProviderStatus
  availableModels : List (String × List String)
  activeParallelStage : Option ParallelStageInfo
deriving DecidableEq, Repr

/-- Property access on a string-keyed object. -/
def lookupKey {α : Type} : List (String × α) → String → Option α
  | [], _ => none
  | (k, v) :: rest, key => if k = key then some v else lookupKey rest key

/-- Object-spread update of a string-keyed object: replaces the value
in place when the key exists, appends the binding otherwise. -/
def setKey {α : Type} : List (String × α) → String → α → List (String × α)
  | [], key, v => [(key, v)]
  | (k, w) :: rest, key, v =>
      if k = key then (key, v) :: rest else (k, w) :: setKey rest key v

/-- JavaScript nullish coalescing where both operands may be undefined. -/
def jsCoalesce {α : Type} (a b : Option α) : Option α :=
  match a with
  | some v => some v
  | none => b

/-- JavaScript string coercion of a possibly-undefined string, as
performed by the binary + operator: undefined prints as "undefined". -/
def jsString : Option String → String
  | none => "undefined"
  | some s => s

/-- The fixed agent ids of the default canvas (DEFAULT_AGENT_IDS). -/
def DEFAULT_AGENT_IDS : List String :=
  ["router-1", "coder-1", "analyzer-1", "validator-1", "synthesizer-1"]

/-- The zeroed idle record every default agent starts from. -/
def idleMetrics : AgentMetrics :=
  { status := .idle, tokens := some 0, tokensPerSec := some 0,
    latencyMs := some 0, vramGb := some 0, output := some "",
    provider := .simulation }

/-- defaultMetrics of the source: one idle record per default agent id. -/
def defaultMetrics : List (String × AgentMetrics) :=
  DEFAULT_AGENT_IDS.map (fun id => (id, idleMetrics))

/-- The initial pipeline state installed when the provider mounts. -/
def initState : PipelineState :=
  { status := .idle,
    prompt := "Build a user authentication REST API with JWT tokens",
    agentMetrics := defaultMetrics,
    totalTokens := 0,
    totalMs := 0,
    error := none,
    useRealModels := false,
    providerType := .simulation,
    providerStatus := { ollama := false, lmstudio := false,
                        llamacpp := false, transformers := false },
    availableModels := [],
    activeParallelStage := none }

/-- The tagged union of protocol events dispatched by handleEvent.
Every payload field is Option-typed because the source reads it from
parsed JSON with a cast and (for most fields) a nullish default. -/
inductive PipelineEvent where
  | agent_start (agentId : String) (provider : Option ProviderType)
  | agent_token (agentId : String) (token : Option String)
      (totalTokens : Option Rat) (tokensPerSec : Option Rat)
  | agent_vram (agentId : String) (vramGb : Option Rat)
  | agent_done (agentId : String) (totalTokens : Option Rat)
      (tokensPerSec : Option Rat) (latencyMs : Option Rat)
      (vramGb : Option Rat) (provider : Option ProviderType)
  | stage_parallel (stageIndex : Option Rat) (agentIds : Option (List String))
  | pipeline_done (totalPipelineTokens : Option Rat) (totalPipelineMs : Option Rat)
  | pipeline_error (message : Option String)
deriving DecidableEq, Repr

/-- handleEvent of the source: applies one parsed protocol event to the
state.  Each case mirrors the corresponding setState closure. -/
def handleEvent (s : PipelineState) (event : PipelineEvent) : PipelineState :=
  match event with
  | .agent_start agentId provider =>
      let newMetrics : AgentMetrics :=
        match lookupKey s.agentMetrics agentId with
        | some prev =>
            { prev with status := .running,
                        provider := provider.getD .simulation }
        | none =>
            { status := .running, tokens := none, tokensPerSec := none,
              latencyMs := none, vramGb := none, output := none,
              provider := provider.getD .simulation }
      { s with agentMetrics := setKey s.agentMetrics agentId newMetrics }
  | .agent_token agentId token totalTokens tokensPerSec =>
      let prev := (lookupKey s.agentMetrics agentId).getD
        { status := .running, tokens := some 0, tokensPerSec := some 0,
          latencyMs := some 0, vramGb := some 0, output := some "",
          provider := .simulation }
      let next : AgentMetrics :=
        { prev with
            tokens := jsCoalesce totalTokens prev.tokens,
            tokensPerSec := jsCoalesce tokensPerSec prev.tokensPerSec,
            output := some (jsString prev.output ++ token.getD "") }
      { s with agentMetrics := setKey s.agentMetrics agentId next }
  | .agent_vram agentId vramGb =>
      match lookupKey s.agentMetrics agentId with
      | none => s
      | some prev =>
          let next : AgentMetrics := { prev with vramGb := vramGb }
          { s with agentMetrics := setKey s.agentMetrics agentId next }
  | .agent_done agentId totalTokens tokensPerSec latencyMs vramGb provider =>
      match lookupKey s.agentMetrics agentId with
      | none => s
      | some prev =>
          let next : AgentMetrics :=
            { prev with
                status := .done,
                tokens := jsCoalesce totalTokens prev.tokens,
                tokensPerSec := jsCoalesce tokensPerSec prev.tokensPerSec,
                latencyMs := jsCoalesce latencyMs prev.latencyMs,
                vramGb := jsCoalesce vramGb prev.vramGb,
                provider := provider.getD prev.provider }
          { s with agentMetrics := setKey s.agentMetrics agentId next }
  | .stage_parallel stageIndex agentIds =>
      let info : ParallelStageInfo :=
        { stageIndex := stageIndex, agentIds := agentIds }
      { s with activeParallelStage := some info }
  | .pipeline_done totalPipelineTokens totalPipelineMs =>
      { s with status := .done,
               activeParallelStage := none,
               totalTokens := totalPipelineTokens.getD s.totalTokens,
               totalMs := totalPipelineMs.getD s.totalMs }
  | .pipeline_error message =>
      { s with status := .stopped,
               activeParallelStage := none,
               error := some (message.getD "Unknown error") }

/-- Applies a stream of events in arrival order. -/
def applyEvents (s : PipelineState) (es : List PipelineEvent) : PipelineState :=
  es.foldl handleEvent s

/-- The synchronous state transition performed by run of the source:
before the network call settles it sets status to running, resets all
metrics to the idle defaults, zeroes the totals and clears the error.
The transport abort of the previous run is a non-state side effect. -/
def run (s : PipelineState) : PipelineState :=
  { s with status := .running,
           agentMetrics := defaultMetrics,
           totalTokens := 0,
           totalMs := 0,
           error := none }

/-- The catch branch of run: an AbortError (user cancellation) leaves
the state untouched, any other failure transitions to stopped with a
connection-failure message. -/
def runCatch (s : PipelineState) (abortError : Bool) (msg : String) : PipelineState :=
  match abortError with
  | true => s
  | false =>
      { s with status := .stopped,
               error := some ("Connection failed: " ++ msg ++ ". Is the backend running?") }

/-- The state transition of stop: only the status changes; the
transport abort is a non-state side effect. -/
def stop (s : PipelineState) : PipelineState :=
  { s with status := .stopped }

/-- The state transition of reset: back to idle with metrics, totals
and error cleared; the transport abort is a non-state side effect. -/
def reset (s : PipelineState) : PipelineState :=
  { s with status := .idle,
           agentMetrics := defaultMetrics,
           totalTokens := 0,
           totalMs := 0,
           error := none }

/-- Optional reachability flags inside the providers payload. -/
structure ProviderFlagsPayload where
  ollama : Option Bool
  lmstudio : Option Bool
  llamacpp : Option Bool
  transformers : Option Bool
deriving DecidableEq, Repr

/-- Wire payload of GET /api/providers as read by the poller: the
providers object and each flag may be absent. -/
structure ProvidersPayload where
  providers : Option ProviderFlagsPayload
deriving DecidableEq, Repr

/-- Wire payload of GET /api/models: the models map may be absent. -/
structure ModelsPayload where
  models : Option (List (String × List String))
deriving DecidableEq, Repr

/-- Outcome of one discovery poll.  failed: a request rejected
(network error or the 4 second timeout) and the catch block swallowed
it.  responded: both requests settled; a payload is none when its
response was not ok. -/
inductive FetchOutcome where
  | failed
  | responded (provData : Option ProvidersPayload) (modData : Option ModelsPayload)
deriving DecidableEq, Repr

/-- fetchStatus of the discovery poller: the state update performed for
one poll outcome.  The conditional spreads of the source update
providerStatus and availableModels only when the matching payload is
present; the catch branch performs no update at all. -/
def fetchStatus (s : PipelineState) (outcome : FetchOutcome) : PipelineState :=
  match outcome with
  | .failed => s
  | .responded provData modData =>
      { s with
          providerStatus :=
            match provData with
            | none => s.providerStatus
            | some d =>
                { ollama := (d.providers.bind (·.ollama)).getD false,
                  lmstudio := (d.providers.bind (·.lmstudio)).getD false,
                  llamacpp := (d.providers.bind (·.llamacpp)).getD false,
                  transformers := (d.providers.bind (·.transformers)).getD false },
          availableModels :=
            match modData with
            | none => s.availableModels
            | some d => d.models.getD [] }

/-- Recognizes the pipeline_error event kind. -/
def isPipelineError : PipelineEvent → Bool
  | .pipeline_error _ => true
  | _ => false

/-- One step of the output-concatenation of the spec: an agent_token
event for the given agent appends its token field (an absent token
contributes the empty string, per the wire default of the source);
every other event contributes nothing. -/
def tokAppend (id : String) (acc : String) (e : PipelineEvent) : String :=
  match e with
  | .agent_token aid token _ _ => if aid = id then acc ++ token.getD "" else acc
  | _ => acc

/-- Modelled from the words of the spec, for comparison with the state
machine: the concatenation, in arrival order, of the token fields of
all agent_token events carrying the given agent id. -/
def specTokenConcat (id : String) (es : List PipelineEvent) : String :=
  es.foldl (tokAppend id) ""

/-- An external interaction with the session: a controller call, the
failure continuation of run, a discovery poll outcome, or one protocol
event from the stream. -/
inductive Action where
  | run
  | stop
  | reset
  | runFailed (abortError : Bool) (msg : String)
  | poll (outcome : FetchOutcome)
  | event (e : PipelineEvent)
deriving DecidableEq, Repr

/-- The state transition performed by one action. -/
def stepAction (s : PipelineState) : Action → PipelineState
  | .run => run s
  | .stop => stop s
  | .reset => reset s
  | .runFailed abortError msg => runCatch s abortError msg
  | .poll outcome => fetchStatus s outcome
  | .event e => handleEvent s e

/-- Applies a sequence of actions in order. -/
def applyActions (s : PipelineState) (acts : List Action) : PipelineState :=
  acts.foldl stepAction s

/-- How one action transforms the activeParallelStage field alone:
stage_parallel installs a stage, pipeline_done and pipeline_error clear
it, and every other action (run, stop and reset included) leaves it
untouched. -/
def stepStage (cur : Option ParallelStageInfo) : Action → Option ParallelStageInfo
  | .event (.stage_parallel stageIndex agentIds) => some ⟨stageIndex, agentIds⟩
  | .event (.pipeline_done _ _) => none
  | .event (.pipeline_error _) => none
  | _ => cur

/-- The stage installed by the most recent stage_parallel event of the
action sequence and not yet superseded. -/
def lastParallelStage (acts : List Action) : Option ParallelStageInfo :=
  acts.foldl stepStage none

/-- The event stream of the end-to-end test scenario. -/
def c1Events : List PipelineEvent :=
  [.agent_start "router-1" none,
   .agent_token "router-1" (some "Hi") (some 1) (some 5),
   .agent_done "router-1" (some 1) (some 5) (some 120) (some 2.1) none,
   .pipeline_done (some 1) (some 120)]

/-- The state after running the end-to-end scenario from the initial
state. -/
def c1Final : PipelineState := applyEvents (run initState) c1Events

/-- An event stream whose first event starts an agent id that has no
default record: the fresh record is created by spreading undefined. -/
def c2BadEvents : List PipelineEvent :=
  [.agent_start "ghost-x" none,
   .agent_token "ghost-x" (some "Hi") (some 1) (some 5)]

/-- Updating a key and reading it back yields the written value. -/
theorem lookupKey_setKey_self {α : Type} (m : List (String × α)) (k : String) (v : α) :
    lookupKey (setKey m k v) k = some v := by
  induction m with
  | nil => simp [setKey, lookupKey]
  | cons p rest ih =>
      obtain ⟨k2, w⟩ := p
      by_cases h : k2 = k
      · simp [setKey, h, lookupKey]
      · simp [setKey, h, lookupKey, ih]

/-- Updating one key does not change any other key. -/
theorem lookupKey_setKey_ne {α : Type} (m : List (String × α)) (k k2 : String) (v : α)
    (h : k ≠ k2) : lookupKey (setKey m k v) k2 = lookupKey m k2 := by
  induction m with
  | nil => simp [setKey, lookupKey, h]
  | cons p rest ih =>
      obtain ⟨k3, w⟩ := p
      by_cases h2 : k3 = k
      · subst h2
        simp [setKey, lookupKey, h]
      · simp only [setKey, lookupKey, if_neg h2]
        split_ifs with h3
        · rfl
        · exact ih

/-- Every record of the default metrics map is the idle record. -/
theorem lookupKey_defaultMetrics (id : String) (m : AgentMetrics)
    (h : lookupKey defaultMetrics id = some m) : m = idleMetrics := by
  simp [defaultMetrics, DEFAULT_AGENT_IDS, lookupKey] at h
  split_ifs at h <;> simp_all

/-- One event keeps the record of an agent whose output is a defined
string present, and extends that output by exactly the token the event
contributes for this agent. -/
theorem handleEvent_output_step (id : String) (s : PipelineState) (m : AgentMetrics)
    (w : String) (e : PipelineEvent)
    (h1 : lookupKey s.agentMetrics id = some m) (h2 : m.output = some w) :
    ∃ m2, lookupKey (handleEvent s e).agentMetrics id = some m2 ∧
      m2.output = some (tokAppend id w e) := by
  cases e with
  | agent_start aid provider =>
      by_cases hid : aid = id
      · subst hid
        refine ⟨{ m with status := .running, provider := provider.getD .simulation },
                ?_, ?_⟩
        · simp [handleEvent, h1, lookupKey_setKey_self]
        · simpa [tokAppend] using h2
      · exact ⟨m, by simp [handleEvent, lookupKey_setKey_ne _ _ _ _ hid, h1],
               by simpa [tokAppend] using h2⟩
  | agent_token aid token totalTokens tokensPerSec =>
      by_cases hid : aid = id
      · subst hid
        refine ⟨{ m with
                    tokens := jsCoalesce totalTokens m.tokens,
                    tokensPerSec := jsCoalesce tokensPerSec m.tokensPerSec,
                    output := some (jsString m.output ++ token.getD "") },
                ?_, ?_⟩
        · simp [handleEvent, h1, lookupKey_setKey_self]
        · simp [tokAppend, h2, jsString]
      · exact ⟨m, by simp [handleEvent, lookupKey_setKey_ne _ _ _ _ hid, h1],
               by simpa [tokAppend, hid] using h2⟩
  | agent_vram aid vramGb =>
      by_cases hid : aid = id
      · subst hid
        refine ⟨{ m with vramGb := vramGb }, ?_, ?_⟩
        · simp [handleEvent, h1, lookupKey_setKey_self]
        · simpa [tokAppend] using h2
      · cases hl : lookupKey s.agentMetrics aid with
        | none => exact ⟨m, by simp [handleEvent, hl, h1], by simpa [tokAppend] using h2⟩
        | some prev =>
            exact ⟨m, by simp [handleEvent, hl, lookupKey_setKey_ne _ _ _ _ hid, h1],
                   by simpa [tokAppend] using h2⟩
  | agent_done aid totalTokens tokensPerSec latencyMs vramGb provider =>
      by_cases hid : aid = id
      · subst hid
        refine ⟨{ m with
                    status := .done,
                    tokens := jsCoalesce totalTokens m.tokens,
                    tokensPerSec := jsCoalesce tokensPerSec m.tokensPerSec,
                    latencyMs := jsCoalesce latencyMs m.latencyMs,
                    vramGb := jsCoalesce vramGb m.vramGb,
                    provider := provider.getD m.provider },
                ?_, ?_⟩
        · simp [handleEvent, h1, lookupKey_setKey_self]
        · simpa [tokAppend] using h2
      · cases hl : lookupKey s.agentMetrics aid with
        | none => exact ⟨m, by simp [handleEvent, hl, h1], by simpa [tokAppend] using h2⟩
        | some prev =>
            exact ⟨m, by simp [handleEvent, hl, lookupKey_setKey_ne _ _ _ _ hid, h1],
                   by simpa [tokAppend] using h2⟩
  | stage_parallel stageIndex agentIds =>
      exact ⟨m, by simpa [handleEvent] using h1, by simpa [tokAppend] using h2⟩
  | pipeline_done totalPipelineTokens totalPipelineMs =>
      exact ⟨m, by simpa [handleEvent] using h1, by simpa [tokAppend] using h2⟩
  | pipeline_error message =>
      exact ⟨m, by simpa [handleEvent] using h1, by simpa [tokAppend] using h2⟩

/-- Folding a stream of events preserves presence of the record of an
agent whose output is defined, and its final output is the starting
output extended by every token the stream carries for this agent. -/
theorem applyEvents_output (id : String) (es : List PipelineEvent) :
    ∀ (s : PipelineState) (m : AgentMetrics) (w : String),
      lookupKey s.agentMetrics id = some m → m.output = some w →
      ∃ m2, lookupKey (applyEvents s es).agentMetrics id = some m2 ∧
        m2.output = some (es.foldl (tokAppend id) w) := by
  induction es with
  | nil => exact fun s m w h1 h2 => ⟨m, h1, by simpa using h2⟩
  | cons e es ih =>
      intro s m w h1 h2
      obtain ⟨m1, hm1, ho1⟩ := handleEvent_output_step id s m w e h1 h2
      simpa [applyEvents] using ih (handleEvent s e) m1 (tokAppend id w e) hm1 ho1

/-- An event other than pipeline_error never writes the error field. -/
theorem handleEvent_error (s : PipelineState) (e : PipelineEvent)
    (h : isPipelineError e = false) : (handleEvent s e).error = s.error := by
  cases e with
  | agent_start aid provider => rfl
  | agent_token aid token totalTokens tokensPerSec => rfl
  | agent_vram aid vramGb => cases hl : lookupKey s.agentMetrics aid <;> simp [handleEvent, hl]
  | agent_done aid totalTokens tokensPerSec latencyMs vramGb provider =>
      cases hl : lookupKey s.agentMetrics aid <;> simp [handleEvent, hl]
  | stage_parallel stageIndex agentIds => rfl
  | pipeline_done totalPipelineTokens totalPipelineMs => rfl
  | pipeline_error message => simp [isPipelineError] at h

/-- A stream free of pipeline_error events leaves the error field
exactly as it was. -/
theorem applyEvents_error (es : List PipelineEvent) :
    ∀ s : PipelineState, (∀ e ∈ es, isPipelineError e = false) →
      (applyEvents s es).error = s.error := by
  induction es with
  | nil => exact fun s _ => rfl
  | cons e es ih =>
      intro s hall
      calc (applyEvents s (e :: es)).error
          = (applyEvents (handleEvent s e) es).error := rfl
        _ = (handleEvent s e).error :=
            ih (handleEvent s e) (fun e2 he2 => hall e2 (List.mem_cons_of_mem e he2))
        _ = s.error := handleEvent_error s e (hall e (List.mem_cons_self e es))

/-- One action moves the activeParallelStage field exactly as
stepStage describes. -/
theorem stepAction_activeParallelStage (s : PipelineState) (a : Action) :
    (stepAction s a).activeParallelStage = stepStage s.activeParallelStage a := by
  cases a with
  | run => rfl
  | stop => rfl
  | reset => rfl
  | runFailed abortError msg => cases abortError <;> rfl
  | poll outcome => cases outcome <;> rfl
  | event e =>
      cases e with
      | agent_start aid provider => rfl
      | agent_token aid token totalTokens tokensPerSec => rfl
      | agent_vram aid vramGb =>
          cases hl : lookupKey s.agentMetrics aid <;>
            simp [stepAction, handleEvent, hl, stepStage]
      | agent_done aid totalTokens tokensPerSec latencyMs vramGb provider =>
          cases hl : lookupKey s.agentMetrics aid <;>
            simp [stepAction, handleEvent, hl, stepStage]
      | stage_parallel stageIndex agentIds => rfl
      | pipeline_done totalPipelineTokens totalPipelineMs => rfl
      | pipeline_error message => rfl

/-- Folding actions moves the activeParallelStage field exactly as the
fold of stepStage describes. -/
theorem applyActions_activeParallelStage (acts : List Action) :
    ∀ s : PipelineState,
      (applyActions s acts).activeParallelStage =
        acts.foldl stepStage s.activeParallelStage := by
  induction acts with
  | nil => exact fun _ => rfl
  | cons a acts ih =>
      intro s
      calc (applyActions s (a :: acts)).activeParallelStage
          = (applyActions (stepAction s a) acts).activeParallelStage := rfl
        _ = acts.foldl stepStage (stepAction s a).activeParallelStage :=
            ih (stepAction s a)
        _ = acts.foldl stepStage (stepStage s.activeParallelStage a) := by
            rw [stepAction_activeParallelStage]
        _ = (a :: acts).foldl stepStage s.activeParallelStage := rfl

/-- An agent_token event carrying both numeric fields installs them as
authoritative replacements, whatever the previous record was. -/
theorem agent_token_replaces (s : PipelineState) (id : String) (token : Option String)
    (tt tps : Rat) :
    ∃ m, lookupKey (handleEvent s (.agent_token id token (some tt) (some tps))).agentMetrics id
        = some m ∧ m.tokens = some tt ∧ m.tokensPerSec = some tps := by
  cases hl : lookupKey s.agentMetrics id with
  | none =>
      exact ⟨{ status := .running, tokens := some tt, tokensPerSec := some tps,
               latencyMs := some 0, vramGb := some 0,
               output := some (jsString (some "") ++ token.getD ""),
               provider := .simulation },
             by simp [handleEvent, hl, lookupKey_setKey_self, jsCoalesce], rfl, rfl⟩
  | some prev =>
      exact ⟨{ prev with
                 tokens := some tt, tokensPerSec := some tps,
                 output := some (jsString prev.output ++ token.getD "") },
             by simp [handleEvent, hl, lookupKey_setKey_self, jsCoalesce], rfl, rfl⟩

/-- C1: feeding, in order, agent_start, agent_token "Hi", agent_done
and pipeline_done for router-1 to the state machine right after run()
from the initial state yields status done, the expected router-1
metrics record (done, 1 token, 5 tokens per second, 120 ms latency,
2.1 GB VRAM, output "Hi"), totalTokens 1 and totalMs 120. -/
theorem c1_end_to_end :
    c1Final.status = .done ∧
    lookupKey c1Final.agentMetrics "router-1" =
      some { status := .done, tokens := some 1, tokensPerSec := some 5,
             latencyMs := some 120, vramGb := some 2.1, output := some "Hi",
             provider := .simulation } ∧
    c1Final.totalTokens = 1 ∧ c1Final.totalMs = 120 :=
  ⟨rfl, rfl, rfl, rfl⟩

/-- C2 (amended): for every event stream and every agent id that has a
record in the metrics map installed by run() (the default agent ids),
the resulting output is exactly the concatenation, in arrival order,
of the token fields of the agent_token events carrying that id; and an
agent_token event carrying totalTokens and tokensPerSec installs them
as authoritative replacements of the previous values.  The original
claim quantified over every agent id; it fails for an id first
introduced by an agent_start event, whose record is created by
spreading an undefined previous record, so its output starts undefined
and a later agent_token prepends the string "undefined". -/
theorem c2_output_concatenation (es : List PipelineEvent) (id : String)
    (h : lookupKey (run initState).agentMetrics id ≠ none)
    (s : PipelineState) (token : Option String) (tt tps : Rat) :
    (∃ m, lookupKey (applyEvents (run initState) es).agentMetrics id = some m ∧
        m.output = some (specTokenConcat id es)) ∧
    (∃ m, lookupKey (handleEvent s (.agent_token id token (some tt) (some tps))).agentMetrics id
        = some m ∧ m.tokens = some tt ∧ m.tokensPerSec = some tps) := by
  refine ⟨?_, agent_token_replaces s id token tt tps⟩
  obtain ⟨m0, hm0⟩ : ∃ m0, lookupKey (run initState).agentMetrics id = some m0 := by
    cases hl : lookupKey (run initState).agentMetrics id with
    | none => exact absurd hl h
    | some m0 => exact ⟨m0, rfl⟩
  have hidle : m0 = idleMetrics := lookupKey_defaultMetrics id m0 hm0
  have hout : m0.output = some "" := by rw [hidle]; rfl
  simpa [specTokenConcat] using
    applyEvents_output id es (run initState) m0 "" hm0 hout

/-- Witness for C2 at a concrete instance. -/
theorem c2_output_concatenation_witness :
    lookupKey (run initState).agentMetrics "router-1" ≠ none ∧
    ((∃ m, lookupKey (applyEvents (run initState)
          [.agent_token "router-1" (some "Hi") none none]).agentMetrics "router-1" = some m ∧
        m.output = some (specTokenConcat "router-1"
          [.agent_token "router-1" (some "Hi") none none])) ∧
     (∃ m, lookupKey (handleEvent initState
          (.agent_token "router-1" none (some 3) (some 4))).agentMetrics "router-1"
        = some m ∧ m.tokens = some 3 ∧ m.tokensPerSec = some 4)) :=
  ⟨by decide,
   c2_output_concatenation [.agent_token "router-1" (some "Hi") none none]
     "router-1" (by decide) initState none 3 4⟩

/-- C2 counterexample: for the agent id ghost-x, introduced by an
agent_start event rather than a default record, the output after an
agent_token event carrying "Hi" is "undefinedHi" (the JavaScript
string coercion of the undefined previous output), not the
concatenation "Hi" the claim demands. -/
theorem c2_counterexample :
    specTokenConcat "ghost-x" c2BadEvents = "Hi" ∧
    lookupKey (applyEvents (run initState) c2BadEvents).agentMetrics "ghost-x" =
      some { status := .running, tokens := some 1, tokensPerSec := some 5,
             latencyMs := none, vramGb := none, output := some "undefinedHi",
             provider := .simulation } ∧
    ("undefinedHi" : String) ≠ "Hi" :=
  ⟨rfl, rfl, by decide⟩

/-- C3 (amended): applying agent_vram for an agent id with no metrics
record is a no-op, but applying agent_token for such an id does add a
new entry: the handler falls back to a freshly constructed default
record (status running, zeroed numerics, empty output) and applies the
event fields to it.  The original claim said agent_token never adds an
entry; the fallback refutes that. -/
theorem c3_unknown_agent_events (s : PipelineState) (agentId : String)
    (h : lookupKey s.agentMetrics agentId = none)
    (v : Option Rat) (token : Option String) (tt tps : Option Rat) :
    handleEvent s (.agent_vram agentId v) = s ∧
    lookupKey (handleEvent s (.agent_token agentId token tt tps)).agentMetrics agentId =
      some { status := .running,
             tokens := jsCoalesce tt (some 0),
             tokensPerSec := jsCoalesce tps (some 0),
             latencyMs := some 0, vramGb := some 0,
             output := some (token.getD ""),
             provider := .simulation } := by
  constructor
  · simp [handleEvent, h]
  · simp [handleEvent, h, lookupKey_setKey_self, jsString]

/-- Witness for C3 at a concrete instance. -/
theorem c3_unknown_agent_events_witness :
    lookupKey initState.agentMetrics "ghost-3" = none ∧
    (handleEvent initState (.agent_vram "ghost-3" none) = initState ∧
     lookupKey (handleEvent initState
          (.agent_token "ghost-3" (some "ok") none (some 7))).agentMetrics "ghost-3" =
       some { status := .running,
              tokens := jsCoalesce none (some 0),
              tokensPerSec := jsCoalesce (some 7) (some 0),
              latencyMs := some 0, vramGb := some 0,
              output := some ((some "ok").getD ""),
              provider := .simulation }) :=
  ⟨by decide,
   c3_unknown_agent_events initState "ghost-3" (by decide) none (some "ok") none (some 7)⟩

/-- C3 counterexample: ghost-1 has no record in the initial state, yet
one agent_token event adds a fresh entry for it, so the key set of
agentMetrics does change. -/
theorem c3_counterexample :
    lookupKey initState.agentMetrics "ghost-1" = none ∧
    lookupKey (handleEvent initState
        (.agent_token "ghost-1" (some "Hi") (some 1) (some 5))).agentMetrics "ghost-1" =
      some { status := .running, tokens := some 1, tokensPerSec := some 5,
             latencyMs := some 0, vramGb := some 0, output := some "Hi",
             provider := .simulation } :=
  ⟨rfl, rfl⟩

/-- C4: after run() and any stream free of pipeline_error events, if
the pipeline is still running then stop() yields status stopped with
error still null, and the AbortError continuation of run (raised by
the transport abort of stop) leaves the state untouched, so user
cancellation is never surfaced as an error message. -/
theorem c4_stop_is_silent (s0 : PipelineState) (es : List PipelineEvent)
    (hne : ∀ e ∈ es, isPipelineError e = false)
    (_hrun : (applyEvents (run s0) es).status = .running)
    (msg : String) :
    (stop (applyEvents (run s0) es)).status = .stopped ∧
    (stop (applyEvents (run s0) es)).error = none ∧
    runCatch (applyEvents (run s0) es) true msg = applyEvents (run s0) es := by
  refine ⟨rfl, ?_, rfl⟩
  show (applyEvents (run s0) es).error = none
  rw [applyEvents_error es (run s0) hne]
  rfl

/-- Witness for C4 at a concrete instance. -/
theorem c4_stop_is_silent_witness :
    (∀ e ∈ ([] : List PipelineEvent), isPipelineError e = false) ∧
    (applyEvents (run initState) []).status = .running ∧
    ((stop (applyEvents (run initState) [])).status = .stopped ∧
     (stop (applyEvents (run initState) [])).error = none ∧
     runCatch (applyEvents (run initState) []) true "boom" = applyEvents (run initState) []) :=
  ⟨by simp, rfl, c4_stop_is_silent initState [] (by simp) rfl "boom"⟩

/-- C5: a pipeline_error event with message m applied while running
yields status stopped, error m, and a cleared activeParallelStage. -/
theorem c5_pipeline_error_transition (s : PipelineState) (message : String)
    (_h : s.status = .running) :
    (handleEvent s (.pipeline_error (some message))).status = .stopped ∧
    (handleEvent s (.pipeline_error (some message))).error = some message ∧
    (handleEvent s (.pipeline_error (some message))).activeParallelStage = none :=
  ⟨rfl, rfl, rfl⟩

/-- Witness for C5: the concrete model-unavailable instance of the
claim, fed to a freshly started (running) pipeline. -/
theorem c5_pipeline_error_transition_witness :
    (run initState).status = .running ∧
    ((handleEvent (run initState) (.pipeline_error (some "model unavailable"))).status = .stopped ∧
     (handleEvent (run initState) (.pipeline_error (some "model unavailable"))).error =
        some "model unavailable" ∧
     (handleEvent (run initState) (.pipeline_error (some "model unavailable"))).activeParallelStage =
        none) :=
  ⟨rfl, c5_pipeline_error_transition (run initState) "model unavailable" rfl⟩

/-- C6: run() synchronously moves every starting state to running with
all agent metrics reset to the idle defaults (idle status, zeroed
numerics, empty output), totals zeroed and error cleared. -/
theorem c6_run_resets_synchronously (s : PipelineState) :
    (run s).status = .running ∧
    (run s).agentMetrics = defaultMetrics ∧
    (run s).totalTokens = 0 ∧
    (run s).totalMs = 0 ∧
    (run s).error = none ∧
    defaultMetrics = DEFAULT_AGENT_IDS.map (fun id => (id, idleMetrics)) ∧
    idleMetrics =
      { status := .idle, tokens := some 0, tokensPerSec := some 0,
        latencyMs := some 0, vramGb := some 0, output := some "",
        provider := .simulation } :=
  ⟨rfl, rfl, rfl, rfl, rfl, rfl, rfl⟩

/-- C7 (amended): activeParallelStage always equals the stage of the
most recent stage_parallel event not yet superseded by a pipeline_done
or pipeline_error event; run(), stop() and reset() leave the field
untouched, so it can stay non-null across them.  The original claim
said states produced by stop(), reset() or a later run() have a null
activeParallelStage; the counterexample refutes that. -/
theorem c7_stage_follows_stream (acts : List Action) :
    (applyActions initState acts).activeParallelStage = lastParallelStage acts :=
  applyActions_activeParallelStage acts initState

/-- C7 counterexample: run, then a stage_parallel event, then reset
yields an idle state whose activeParallelStage is still the installed
stage, not null. -/
theorem c7_counterexample :
    (applyActions initState
        [.run, .event (.stage_parallel (some 0) (some ["router-1", "coder-1"])),
         .reset]).status = .idle ∧
    (applyActions initState
        [.run, .event (.stage_parallel (some 0) (some ["router-1", "coder-1"])),
         .reset]).activeParallelStage =
      some { stageIndex := some 0, agentIds := some ["router-1", "coder-1"] } :=
  ⟨rfl, rfl⟩

/-- C8: an agent_vram event for an agent id absent from agentMetrics
returns the state completely unchanged. -/
theorem c8_unknown_vram_noop (s : PipelineState) (agentId : String) (vramGb : Option Rat)
    (h : lookupKey s.agentMetrics agentId = none) :
    handleEvent s (.agent_vram agentId vramGb) = s := by
  simp [handleEvent, h]

/-- Witness for C8 at a concrete instance. -/
theorem c8_unknown_vram_noop_witness :
    lookupKey initState.agentMetrics "ghost-agent" = none ∧
    handleEvent initState (.agent_vram "ghost-agent" (some 3)) = initState :=
  ⟨by decide, c8_unknown_vram_noop initState "ghost-agent" (some 3) (by decide)⟩

/-- C9: reset() is idempotent on the pipeline run state, and one call
already yields idle status, default metrics, zeroed totals and a null
error; the transport abort it also performs is a non-state effect. -/
theorem c9_reset_idempotent (s : PipelineState) :
    reset (reset s) = reset s ∧
    (reset s).status = .idle ∧
    (reset s).agentMetrics = defaultMetrics ∧
    (reset s).totalTokens = 0 ∧
    (reset s).totalMs = 0 ∧
    (reset s).error = none :=
  ⟨rfl, rfl, rfl, rfl, rfl, rfl⟩

/-- C10: a discovery poll that fails (request rejection swallowed by
the catch block, or non-ok responses yielding null payloads) leaves
the whole state unchanged, and even a successful poll never touches
the run state fields. -/
theorem c10_failed_poll_keeps_state (s : PipelineState) :
    fetchStatus s .failed = s ∧
    fetchStatus s (.responded none none) = s ∧
    ∀ (provData : Option ProvidersPayload) (modData : Option ModelsPayload),
      (fetchStatus s (.responded provData modData)).status = s.status ∧
      (fetchStatus s (.responded provData modData)).agentMetrics = s.agentMetrics ∧
      (fetchStatus s (.responded provData modData)).totalTokens = s.totalTokens ∧
      (fetchStatus s (.responded provData modData)).totalMs = s.totalMs ∧
      (fetchStatus s (.responded provData modData)).error = s.error :=
  ⟨rfl, rfl, fun _ _ => ⟨rfl, rfl, rfl, rfl, rfl⟩⟩

end Pipeline
